import Mathlib

/-!
Shallow embedding of the message-gating and model-routing engine of the
discordai repository (src/message_filter.py and src/openai_integration.py),
together with theorems settling the specification claims about it.

Time is modelled in integral seconds as Nat.  For the comparison patterns
the source uses (now - t < 60s, now - t >= 60s, now - start >= 1h,
expires <= now) truncated Nat subtraction agrees with Python timedelta
comparison for every input, including clocks that run backwards, because a
negative timedelta compares below the positive constants exactly when the
truncated difference 0 does.
-/

/-- Per-user rate-limit record of MessageFilter.rate_limit: the list of
(timestamp, token_count) pairs, the hourly token counter and the start of
the current hour window (message_filter.py lines 137-142). -/
structure UserData where
  messages : List (Nat × Nat)
  tokens_used_hour : Nat
  last_hour_reset : Nat
  deriving Repr, DecidableEq

/-- Configured ceilings of MessageFilter (message_filter.py lines 27-28). -/
structure RLConfig where
  max_messages_per_minute : Nat
  max_tokens_per_hour : Nat
  deriving Repr, DecidableEq

/-- Pruning step of _check_rate_limit (lines 152-155): keep entries whose
age is strictly below one minute. -/
def prune_messages (now : Nat) (msgs : List (Nat × Nat)) : List (Nat × Nat) :=
  msgs.filter (fun p => now - p.1 < 60)

/-- Body of MessageFilter._check_rate_limit for one user's record
(message_filter.py lines 146-171): hourly reset, minute-window pruning,
message-count check, token check, optimistic admission.  Returns the
rate-limited flag together with the updated record. -/
def check_rate_limit_user (cfg : RLConfig) (d : UserData) (now : Nat) :
    Bool × UserData :=
  let d1 := if 3600 ≤ now - d.last_hour_reset
    then { d with tokens_used_hour := 0, last_hour_reset := now }
    else d
  let msgs := prune_messages now d1.messages
  if cfg.max_messages_per_minute ≤ msgs.length then
    (true, { d1 with messages := msgs })
  else if cfg.max_tokens_per_hour ≤ d1.tokens_used_hour then
    (true, { d1 with messages := msgs })
  else
    (false, { d1 with messages := msgs ++ [(now, 0)] })

/-- MessageFilter._check_rate_limit on the whole user dictionary
(lines 130-171), with the lazy creation of a fresh record on first
contact (lines 137-142). -/
def check_rate_limit (cfg : RLConfig) (m : Nat → Option UserData)
    (uid : Nat) (now : Nat) : Bool × (Nat → Option UserData) :=
  let d := (m uid).getD { messages := [], tokens_used_hour := 0, last_hour_reset := now }
  let r := check_rate_limit_user cfg d now
  (r.1, fun v => if v = uid then some r.2 else m v)

/-- Timestamps a given sequence of _check_rate_limit calls admits
(returns not-rate-limited and appends an entry), starting from record d. -/
def admitted_times (cfg : RLConfig) : UserData → List Nat → List Nat
  | _, [] => []
  | d, t :: ts =>
    let r := check_rate_limit_user cfg d t
    if r.1 then admitted_times cfg r.2 ts
    else t :: admitted_times cfg r.2 ts

/-- Membership test for the rolling 60-second window ending at T,
half-open on the left to match the strict pruning bound: a is counted
when T - 60 < a and a <= T. -/
def in_window (T a : Nat) : Bool := decide (T < a + 60) && decide (a ≤ T)

/-- Timestamps stored in a rate-limit record. -/
def msg_times (d : UserData) : List Nat := d.messages.map Prod.fst

theorem map_fst_prune (t : Nat) (M : List (Nat × Nat)) :
    (prune_messages t M).map Prod.fst =
      (M.map Prod.fst).filter (fun a => t - a < 60) := by
  induction M with
  | nil => rfl
  | cons p ps ih =>
    simp only [prune_messages, List.filter, List.map] at *
    by_cases h : t - p.1 < 60 <;> simp [h, ih, prune_messages]

theorem check_rate_limit_user_cases (cfg : RLConfig) (d : UserData) (t : Nat) :
    (check_rate_limit_user cfg d t).1 = true ∧
        (check_rate_limit_user cfg d t).2.messages = prune_messages t d.messages
      ∨ (check_rate_limit_user cfg d t).1 = false ∧
        (check_rate_limit_user cfg d t).2.messages
          = prune_messages t d.messages ++ [(t, 0)] ∧
        (prune_messages t d.messages).length < cfg.max_messages_per_minute := by
  unfold check_rate_limit_user
  by_cases h1 : 3600 ≤ t - d.last_hour_reset <;>
    by_cases h2 : cfg.max_messages_per_minute ≤ (prune_messages t d.messages).length <;>
    simp [h1, h2] <;> split <;> simp_all

/-- Number of timestamps of A inside the rolling window ending at T. -/
def cntW (T : Nat) (A : List Nat) : Nat := A.countP (in_window T)

theorem cntW_append (T : Nat) (A B : List Nat) :
    cntW T (A ++ B) = cntW T A + cntW T B := by
  simp [cntW]

theorem cntW_singleton (T a : Nat) :
    cntW T [a] = if in_window T a then 1 else 0 := by
  simp [cntW, List.countP_cons]

theorem cntW_filter_eq (T t : Nat) (A : List Nat)
    (hle : ∀ a ∈ A, a ≤ t) (ht : t ≤ T) :
    cntW T (A.filter (fun a => t - a < 60)) = cntW T A := by
  unfold cntW
  rw [List.countP_filter]
  apply List.countP_congr
  intro a ha
  have hat := hle a ha
  simp only [in_window, Bool.and_eq_true, decide_eq_true_eq]
  constructor
  · rintro ⟨⟨h1, h2⟩, _⟩
    exact ⟨h1, h2⟩
  · rintro ⟨h1, h2⟩
    exact ⟨⟨h1, h2⟩, by omega⟩

theorem cntW_eq_zero_of_gt (T : Nat) (A : List Nat) (h : ∀ a ∈ A, T < a) :
    cntW T A = 0 := by
  unfold cntW
  rw [List.countP_eq_zero]
  intro a ha
  have := h a ha
  simp only [in_window, Bool.and_eq_true, decide_eq_true_eq, not_and]
  omega

theorem admitted_subset (cfg : RLConfig) :
    ∀ (ts : List Nat) (d : UserData) (a : Nat),
      a ∈ admitted_times cfg d ts → a ∈ ts := by
  intro ts
  induction ts with
  | nil => intro d a h; simp [admitted_times] at h
  | cons t ts ih =>
    intro d a h
    simp only [admitted_times] at h
    split at h
    · exact List.mem_cons_of_mem _ (ih _ _ h)
    · rcases List.mem_cons.mp h with h | h
      · simp [h]
      · exact List.mem_cons_of_mem _ (ih _ _ h)

theorem admitted_window_core (cfg : RLConfig) (T : Nat) :
    ∀ ts : List Nat, List.Pairwise (fun a b => a ≤ b) ts →
      ∀ d : UserData, (∀ m ∈ msg_times d, ∀ t ∈ ts, m ≤ t) →
      cntW T (msg_times d) + cntW T (admitted_times cfg d ts)
        ≤ max cfg.max_messages_per_minute (cntW T (msg_times d)) := by
  intro ts
  induction ts with
  | nil =>
    intro _ d _
    simp only [admitted_times, cntW, List.countP_nil, Nat.add_zero]
    exact le_max_right _ _
  | cons t ts ih =>
    intro hp d hm
    obtain ⟨hts, hp'⟩ := List.pairwise_cons.mp hp
    have hmt : ∀ m ∈ msg_times d, m ≤ t := fun m hm' => hm m hm' t (List.mem_cons_self t ts)
    rcases check_rate_limit_user_cases cfg d t with ⟨hres, hmsg⟩ | ⟨hres, hmsg, hlen⟩
    · -- call at t rejected: no admission, messages pruned
      have hadm : admitted_times cfg d (t :: ts)
          = admitted_times cfg (check_rate_limit_user cfg d t).2 ts := by
        simp [admitted_times, hres]
      have hmsgt : msg_times (check_rate_limit_user cfg d t).2
          = (msg_times d).filter (fun a => t - a < 60) := by
        simp [msg_times, hmsg, map_fst_prune]
      have hm' : ∀ m ∈ msg_times (check_rate_limit_user cfg d t).2, ∀ u ∈ ts, m ≤ u := by
        intro m hmm u hu
        rw [hmsgt] at hmm
        exact hm m (List.mem_of_mem_filter hmm) u (List.mem_cons_of_mem _ hu)
      have IH := ih hp' (check_rate_limit_user cfg d t).2 hm'
      rw [hadm]
      by_cases hT : t ≤ T
      · have hx : cntW T (msg_times (check_rate_limit_user cfg d t).2)
            = cntW T (msg_times d) := by
          rw [hmsgt]
          exact cntW_filter_eq T t _ hmt hT
        rw [hx] at IH
        exact IH
      · have hz : cntW T (admitted_times cfg (check_rate_limit_user cfg d t).2 ts) = 0 := by
          apply cntW_eq_zero_of_gt
          intro a ha
          have hain := admitted_subset cfg ts _ a ha
          have := hts a hain
          omega
        rw [hz]
        simp
    · -- call at t admitted: entry appended, budget strictly below the ceiling
      have hadm : admitted_times cfg d (t :: ts)
          = t :: admitted_times cfg (check_rate_limit_user cfg d t).2 ts := by
        simp [admitted_times, hres]
      have hmsgt : msg_times (check_rate_limit_user cfg d t).2
          = (msg_times d).filter (fun a => t - a < 60) ++ [t] := by
        simp [msg_times, hmsg, prune_messages] at *
        rw [← map_fst_prune]
        simp [prune_messages]
      have hm' : ∀ m ∈ msg_times (check_rate_limit_user cfg d t).2, ∀ u ∈ ts, m ≤ u := by
        intro m hmm u hu
        rw [hmsgt] at hmm
        rcases List.mem_append.mp hmm with h | h
        · exact hm m (List.mem_of_mem_filter h) u (List.mem_cons_of_mem _ hu)
        · have hmt' : m = t := by simpa using h
          subst hmt'
          exact hts u hu
      have IH := ih hp' (check_rate_limit_user cfg d t).2 hm'
      rw [hadm]
      have hcons : cntW T (t :: admitted_times cfg (check_rate_limit_user cfg d t).2 ts)
          = cntW T (admitted_times cfg (check_rate_limit_user cfg d t).2 ts)
            + (if in_window T t then 1 else 0) := by
        simp [cntW, List.countP_cons]
      by_cases hT : t ≤ T
      · have hfl : cntW T ((msg_times d).filter (fun a => t - a < 60))
            = cntW T (msg_times d) := cntW_filter_eq T t _ hmt hT
        have hx : cntW T (msg_times (check_rate_limit_user cfg d t).2)
            = cntW T (msg_times d) + (if in_window T t then 1 else 0) := by
          rw [hmsgt, cntW_append, hfl, cntW_singleton]
        have hxlen : cntW T (msg_times d) ≤ (prune_messages t d.messages).length := by
          rw [← hfl]
          calc cntW T ((msg_times d).filter (fun a => t - a < 60))
              ≤ ((msg_times d).filter (fun a => t - a < 60)).length :=
                List.countP_le_length _
            _ = (prune_messages t d.messages).length := by
                simp only [msg_times]
                rw [← map_fst_prune]
                simp
        have hx'le : cntW T (msg_times (check_rate_limit_user cfg d t).2)
            ≤ cfg.max_messages_per_minute := by
          rw [hx]
          split <;> omega
        rw [Nat.max_eq_left hx'le] at IH
        have hmaxge : cfg.max_messages_per_minute
            ≤ max cfg.max_messages_per_minute (cntW T (msg_times d)) :=
          le_max_left _ _
        rw [hcons]
        omega
      · have hz : cntW T (admitted_times cfg (check_rate_limit_user cfg d t).2 ts) = 0 := by
          apply cntW_eq_zero_of_gt
          intro a ha
          have hain := admitted_subset cfg ts _ a ha
          have := hts a hain
          omega
        have hzt : (if in_window T t then 1 else 0) = 0 := by
          simp only [in_window, Bool.and_eq_true, decide_eq_true_eq]
          rw [if_neg]
          simp only [not_and]
          omega
        rw [hcons, hz, hzt]
        simp

/-- C1: for every user and every sequence of _check_rate_limit calls with
non-decreasing timestamps, starting from the lazily created empty record,
at most max_messages_per_minute calls are admitted (return
not-rate-limited, appending an entry) whose timestamps fall within any
rolling 60-second window, the window being half-open on the left to match
the strict pruning bound now - timestamp < 60 seconds. -/
theorem c1_rate_limit_window_bound (cfg : RLConfig) (d0 : UserData)
    (ts : List Nat) (T : Nat)
    (hsort : List.Pairwise (fun a b => a ≤ b) ts)
    (hinit : d0.messages = []) :
    cntW T (admitted_times cfg d0 ts) ≤ cfg.max_messages_per_minute := by
  have h0 : msg_times d0 = [] := by simp [msg_times, hinit]
  have hcore := admitted_window_core cfg T ts hsort d0
    (by rw [h0]; intro m hm; simp at hm)
  rw [h0] at hcore
  simpa [cntW] using hcore

theorem c1_rate_limit_window_bound_witness :
    List.Pairwise (fun a b => a ≤ b) [0, 10, 20, 30, 40, 50] ∧
      (⟨[], 0, 0⟩ : UserData).messages = [] ∧
      cntW 50 (admitted_times ⟨5, 1000⟩ ⟨[], 0, 0⟩ [0, 10, 20, 30, 40, 50]) ≤ 5 :=
  ⟨by decide, rfl,
    c1_rate_limit_window_bound ⟨5, 1000⟩ ⟨[], 0, 0⟩ [0, 10, 20, 30, 40, 50] 50
      (by decide) rfl⟩

/-- C2, counterexample to the claim as stated: with the configurable
ceiling max_tokens_per_hour set to 0 (RATE_LIMIT_TOKENS_PER_HOUR=0) the
counter 0 already satisfies tokensUsedThisHour >= maxTokensPerHour; a
check past the hour boundary performs the reset, the message-count check
would admit (0 stored messages against a ceiling of 5), yet the call is
still rejected, necessarily by the token check 0 >= 0 at
message_filter.py line 164. -/
theorem c2_token_ceiling_counterexample :
    (⟨5, 0⟩ : RLConfig).max_tokens_per_hour
        ≤ (⟨[], 0, 0⟩ : UserData).tokens_used_hour ∧
      3600 ≤ 4000 - (⟨[], 0, 0⟩ : UserData).last_hour_reset ∧
      (prune_messages 4000 (⟨[], 0, 0⟩ : UserData).messages).length
        < (⟨5, 0⟩ : RLConfig).max_messages_per_minute ∧
      (check_rate_limit_user ⟨5, 0⟩ ⟨[], 0, 0⟩ 4000).2.tokens_used_hour = 0 ∧
      (check_rate_limit_user ⟨5, 0⟩ ⟨[], 0, 0⟩ 4000).2.last_hour_reset = 4000 ∧
      (check_rate_limit_user ⟨5, 0⟩ ⟨[], 0, 0⟩ 4000).1 = true := by
  decide

/-- C2 as amended: once the hourly token counter has reached the ceiling,
every check whose clock still lies inside the hour window is
rate-limited; and, provided the configured token ceiling is positive, a
check at or past the hour boundary first resets the counter to 0 and the
window start to now, so the token ceiling no longer rejects it and the
outcome is decided by the message-count check alone. -/
theorem c2_token_ceiling (cfg : RLConfig) (d : UserData) (now : Nat)
    (htok : cfg.max_tokens_per_hour ≤ d.tokens_used_hour) :
    (now - d.last_hour_reset < 3600 → (check_rate_limit_user cfg d now).1 = true) ∧
      (0 < cfg.max_tokens_per_hour → 3600 ≤ now - d.last_hour_reset →
        (check_rate_limit_user cfg d now).1
            = decide (cfg.max_messages_per_minute ≤ (prune_messages now d.messages).length) ∧
          (check_rate_limit_user cfg d now).2.tokens_used_hour = 0 ∧
          (check_rate_limit_user cfg d now).2.last_hour_reset = now) := by
  constructor
  · intro h
    unfold check_rate_limit_user
    simp only [if_neg (Nat.not_le.mpr h)]
    by_cases h2 : cfg.max_messages_per_minute ≤ (prune_messages now d.messages).length
    · simp [h2]
    · simp [h2, htok]
  · intro hpos h
    unfold check_rate_limit_user
    simp only [if_pos h]
    by_cases h2 : cfg.max_messages_per_minute ≤ (prune_messages now d.messages).length
    · simp [h2]
    · simp [h2, Nat.not_le.mpr hpos]

theorem c2_token_ceiling_witness :
    (check_rate_limit_user ⟨5, 100⟩ ⟨[], 150, 0⟩ 10).1 = true ∧
      (check_rate_limit_user ⟨5, 100⟩ ⟨[], 150, 0⟩ 4000).1 = false ∧
      (check_rate_limit_user ⟨5, 100⟩ ⟨[], 150, 0⟩ 4000).2.tokens_used_hour = 0 ∧
      (check_rate_limit_user ⟨5, 100⟩ ⟨[], 150, 0⟩ 4000).2.last_hour_reset = 4000 :=
  ⟨(c2_token_ceiling ⟨5, 100⟩ ⟨[], 150, 0⟩ 10 (by decide)).1 (by decide),
    ((c2_token_ceiling ⟨5, 100⟩ ⟨[], 150, 0⟩ 4000 (by decide)).2 (by decide) (by decide)).1,
    ((c2_token_ceiling ⟨5, 100⟩ ⟨[], 150, 0⟩ 4000 (by decide)).2 (by decide) (by decide)).2.1,
    ((c2_token_ceiling ⟨5, 100⟩ ⟨[], 150, 0⟩ 4000 (by decide)).2 (by decide) (by decide)).2.2⟩

/-- Temporary per-user model preference stored in
OpenAIIntegration.user_models (openai_integration.py lines 39-40). -/
structure ModelOverride where
  model : String
  expires_at : Nat
  deriving Repr, DecidableEq

/-- OpenAIIntegration.set_user_model (lines 47-54): insert or replace the
user's override with expiry now + duration_hours hours. -/
def set_user_model (m : Nat → Option ModelOverride) (uid : Nat)
    (model : String) (duration_hours : Nat) (now : Nat) :
    Nat → Option ModelOverride :=
  fun v => if v = uid then some ⟨model, now + duration_hours * 3600⟩ else m v

/-- OpenAIIntegration._cleanup_expired_models (lines 65-74): delete every
override whose expires_at <= now, across all users. -/
def cleanup_expired_models (m : Nat → Option ModelOverride) (now : Nat) :
    Nat → Option ModelOverride :=
  fun v => match m v with
    | some o => if o.expires_at ≤ now then none else some o
    | none => none

/-- OpenAIIntegration.get_user_model (lines 56-63): purge expired
overrides first, then return the user's override model if present, else
the configured default model.  The purged dictionary is returned
alongside the chosen model. -/
def get_user_model (default_model : String) (m : Nat → Option ModelOverride)
    (uid : Nat) (now : Nat) : String × (Nat → Option ModelOverride) :=
  let m' := cleanup_expired_models m now
  (match m' uid with
    | some o => o.model
    | none => default_model, m')

/-- Shape of the dictionary OpenAIIntegration.get_user_model_info returns
(lines 76-91): a temporary override with expiry and remaining time, or
the permanent default model. -/
inductive ModelInfo where
  | temporary (model : String) (expires_at : Nat) (time_remaining : Int)
  | permanent (model : String)
  deriving Repr, DecidableEq

/-- Key is_temporary of the info dictionary (lines 85 and 90). -/
def ModelInfo.is_temporary : ModelInfo → Bool
  | .temporary _ _ _ => true
  | .permanent _ => false

/-- OpenAIIntegration.get_user_model_info (lines 76-91): purge expired
overrides, then describe the user's active override or the default. -/
def get_user_model_info (default_model : String)
    (m : Nat → Option ModelOverride) (uid : Nat) (now : Nat) :
    ModelInfo × (Nat → Option ModelOverride) :=
  let m' := cleanup_expired_models m now
  (match m' uid with
    | some o => .temporary o.model o.expires_at ((o.expires_at : Int) - now)
    | none => .permanent default_model, m')

/-- C3: with an override stored for the user, resolving strictly before
expires_at returns the override model and keeps it; resolving at or after
expires_at returns the default model and deletes the override; and the
purge removes every stored override, for any user, whose expiry has been
reached. -/
theorem c3_resolve_expiry (default_model : String)
    (m : Nat → Option ModelOverride) (uid : Nat) (o : ModelOverride) (now : Nat)
    (h : m uid = some o) :
    (now < o.expires_at →
        (get_user_model default_model m uid now).1 = o.model ∧
        (get_user_model default_model m uid now).2 uid = some o) ∧
      (o.expires_at ≤ now →
        (get_user_model default_model m uid now).1 = default_model ∧
        (get_user_model default_model m uid now).2 uid = none) ∧
      (∀ v o', m v = some o' → o'.expires_at ≤ now →
        cleanup_expired_models m now v = none) := by
  refine ⟨?_, ?_, ?_⟩
  · intro hlt
    simp [get_user_model, cleanup_expired_models, h, Nat.not_le.mpr hlt]
  · intro hge
    simp [get_user_model, cleanup_expired_models, h, hge]
  · intro v o' hv hexp
    simp [cleanup_expired_models, hv, hexp]

/-- Concrete override table used by the C3 witness. -/
def ov_example : Nat → Option ModelOverride :=
  fun v => if v = 1 then some ⟨"gpt-4o", 100⟩
    else if v = 2 then some ⟨"gpt-4o-mini", 50⟩ else none

theorem c3_resolve_expiry_witness :
    (get_user_model "gpt-5-nano" ov_example 1 99).1 = "gpt-4o" ∧
      (get_user_model "gpt-5-nano" ov_example 1 100).1 = "gpt-5-nano" ∧
      (get_user_model "gpt-5-nano" ov_example 1 100).2 1 = none ∧
      cleanup_expired_models ov_example 100 2 = none :=
  ⟨((c3_resolve_expiry "gpt-5-nano" ov_example 1 ⟨"gpt-4o", 100⟩ 99 rfl).1
      (by decide)).1,
    ((c3_resolve_expiry "gpt-5-nano" ov_example 1 ⟨"gpt-4o", 100⟩ 100 rfl).2.1
      (by decide)).1,
    ((c3_resolve_expiry "gpt-5-nano" ov_example 1 ⟨"gpt-4o", 100⟩ 100 rfl).2.1
      (by decide)).2,
    (c3_resolve_expiry "gpt-5-nano" ov_example 1 ⟨"gpt-4o", 100⟩ 100 rfl).2.2
      2 ⟨"gpt-4o-mini", 50⟩ rfl (by decide)⟩

/-- C8: setting a one-hour override and describing it before the hour has
elapsed reports a temporary override with the same model and a strictly
positive remaining time. -/
theorem c8_override_describe_round_trip (default_model mdl : String)
    (m : Nat → Option ModelOverride) (uid : Nat) (now0 now1 : Nat)
    (h0 : now0 ≤ now1) (h1 : now1 < now0 + 3600) :
    (get_user_model_info default_model
          (set_user_model m uid mdl 1 now0) uid now1).1
        = ModelInfo.temporary mdl (now0 + 3600) (((now0 + 3600 : Nat) : Int) - now1) ∧
      (0 : Int) < ((now0 + 3600 : Nat) : Int) - now1 ∧
      (get_user_model_info default_model
          (set_user_model m uid mdl 1 now0) uid now1).1.is_temporary = true := by
  have hset : set_user_model m uid mdl 1 now0 uid = some ⟨mdl, now0 + 3600⟩ := by
    simp [set_user_model]
  have hclean : cleanup_expired_models (set_user_model m uid mdl 1 now0) now1 uid
      = some ⟨mdl, now0 + 3600⟩ := by
    simp only [cleanup_expired_models, hset]
    rw [if_neg (by omega)]
  have hinfo : (get_user_model_info default_model
        (set_user_model m uid mdl 1 now0) uid now1).1
      = ModelInfo.temporary mdl (now0 + 3600) (((now0 + 3600 : Nat) : Int) - now1) := by
    simp [get_user_model_info, hclean]
  refine ⟨hinfo, by omega, ?_⟩
  rw [hinfo]
  rfl

theorem c8_override_describe_round_trip_witness :
    (0 : Nat) ≤ 5 ∧ (5 : Nat) < 0 + 3600 ∧
      (get_user_model_info "gpt-5-nano"
          (set_user_model (fun _ => none) 7 "gpt-4o" 1 0) 7 5).1
        = ModelInfo.temporary "gpt-4o" (0 + 3600) (((0 + 3600 : Nat) : Int) - 5) ∧
      (0 : Int) < ((0 + 3600 : Nat) : Int) - 5 :=
  ⟨by decide, by decide,
    (c8_override_describe_round_trip "gpt-5-nano" "gpt-4o" (fun _ => none) 7 0 5
      (by decide) (by decide)).1,
    (c8_override_describe_round_trip "gpt-5-nano" "gpt-4o" (fun _ => none) 7 0 5
      (by decide) (by decide)).2.1⟩

/-- Python membership of a character list as a contiguous run at the head
of another. -/
def list_starts_with : List Char → List Char → Bool
  | [], _ => true
  | _ :: _, [] => false
  | a :: as, b :: bs => a == b && list_starts_with as bs

/-- Contiguous-substring occurrence of needle anywhere in hay. -/
def occurs_within (needle : List Char) : List Char → Bool
  | [] => needle.isEmpty
  | hay@(_ :: bs) => list_starts_with needle hay || occurs_within needle bs

/-- Python operator needle in hay on strings. -/
def py_in (needle hay : String) : Bool := occurs_within needle.toList hay.toList

/-- Python str.lower, character by character (basic latin, matching
Char.toLower).  Defined over the character list so that terms evaluate
by definitional unfolding. -/
def py_lower (s : String) : String := String.mk (s.toList.map Char.toLower)

/-- Default blocked substrings of MessageFilter (message_filter.py
lines 22-24). -/
def blocked_words : List String := ["spam", "inappropriate", "offensive"]

/-- Character class of the special-character regular expression in
_check_content_safety (line 116): punctuation counted toward the ratio.
Brace, apostrophe, double quote and backslash are written by code point. -/
def special_chars : List Char :=
  ['!', '@', '#', '$', '%', '^', '&', '*', '(', ')', '_', '+', '-', '=',
   '[', ']', Char.ofNat 123, Char.ofNat 125, ';', Char.ofNat 39, ':',
   Char.ofNat 34, Char.ofNat 92, '|', ',', '.', '<', '>', '?']

/-- Count of special characters in the text (line 116). -/
def count_special (s : String) : Nat :=
  s.toList.countP (fun c => special_chars.contains c)

/-- Python str.isupper: at least one cased character and no cased
character in lower case. -/
def py_isupper (s : String) : Bool :=
  s.toList.any Char.isAlpha && s.toList.all (fun c => !c.isAlpha || c.isUpper)

/-- Body of MessageFilter._check_content_safety (lines 101-124) without
the exception handler.  The division computing the special-character
ratio raises ZeroDivisionError on empty input, modelled as the error
case; the ratio comparison count / len > 0.3 is taken over the exact
rationals as 10 * count > 3 * len, which agrees with the source's binary
floating-point comparison for every feasible length. -/
def check_content_safety_core (blocked : List String) (content : String) :
    Except Unit Bool :=
  let content_lower := py_lower content
  if blocked.any (fun w => py_in w content_lower) then .ok false
  else if 10 < content.length && py_isupper content then .ok false
  else if content.length = 0 then .error ()
  else if 3 * content.length < 10 * count_special content then .ok false
  else if 2000 < content.length then .ok false
  else .ok true

/-- MessageFilter._check_content_safety with its exception handler
(lines 126-128): any raised error is logged and turned into false. -/
def check_content_safety (blocked : List String) (content : String) : Bool :=
  match check_content_safety_core blocked content with
  | .ok b => b
  | .error _ => false

/-- C7: the content-safety check is a total Boolean function; on the
empty string the ratio computation divides by the text length and
raises, and the handler turns that into false (unsafe); on every
non-empty string the body itself completes without raising. -/
theorem c7_content_safety_total_and_empty :
    check_content_safety_core blocked_words "" = .error () ∧
      check_content_safety blocked_words "" = false ∧
      ∀ s : String, 0 < s.length →
        (check_content_safety_core blocked_words s).isOk = true := by
  refine ⟨rfl, rfl, ?_⟩
  intro s hs
  simp only [check_content_safety_core]
  split
  · rfl
  · split
    · rfl
    · split
      · exact absurd ‹s.length = 0› (by omega)
      · split
        · rfl
        · split <;> rfl

/-- Caller identity fields MessageFilter._check_user_authorization reads
(message_filter.py lines 78-99): administrator permission, role names,
premium marker, and the id used as rate-limit key. -/
structure Author where
  id : Nat
  is_admin : Bool
  roles : List String
  premium : Bool
  deriving Repr, DecidableEq

/-- MessageFilter._check_user_authorization (lines 78-99): administrator,
or any configured authorized role among the caller's lower-cased role
names, or premium membership. -/
def check_user_authorization (authorized_roles : List String) (a : Author) : Bool :=
  a.is_admin
    || authorized_roles.any (fun ar => (a.roles.map String.toLower).contains ar)
    || a.premium

/-- Configuration of MessageFilter (lines 18-28). -/
structure FilterConfig where
  authorized_roles : List String
  blocked : List String
  rl : RLConfig

/-- Boolean fields of the analysis dictionary analyze_message returns
(lines 40-47). -/
structure FilterResult where
  should_process : Bool
  user_authorized : Bool
  content_safe : Bool
  rate_limited : Bool
  deriving Repr, DecidableEq

/-- MessageFilter.analyze_message (lines 30-76): run the three gates and
combine them into should_process together with the non-empty-after-trim
test on the message text (lines 62-68). -/
def analyze_message (cfg : FilterConfig) (st : Nat → Option UserData)
    (a : Author) (content : String) (now : Nat) :
    FilterResult × (Nat → Option UserData) :=
  let ua := check_user_authorization cfg.authorized_roles a
  let cs := check_content_safety cfg.blocked content
  let r := check_rate_limit cfg.rl st a.id now
  ({ should_process := ua && cs && !r.1 && decide (0 < content.trim.length),
     user_authorized := ua, content_safe := cs, rate_limited := r.1 }, r.2)

/-- C4: should_process equals the conjunction of user_authorized,
content_safe, the negation of rate_limited, and non-emptiness of the
message text after trimming whitespace. -/
theorem c4_should_process_conjunction (cfg : FilterConfig)
    (st : Nat → Option UserData) (a : Author) (content : String) (now : Nat) :
    (analyze_message cfg st a content now).1.should_process
      = ((analyze_message cfg st a content now).1.user_authorized
          && (analyze_message cfg st a content now).1.content_safe
          && !(analyze_message cfg st a content now).1.rate_limited
          && decide (0 < content.trim.length)) := rfl

/-- Replacement of the final entry's token count, mirroring the slice
assignment messages[-1] = (timestamp, token_count) (lines 227-229). -/
def set_last_tokens : List (Nat × Nat) → Nat → List (Nat × Nat)
  | [], _ => []
  | [p], tok => [(p.1, tok)]
  | p :: q :: ps, tok => p :: set_last_tokens (q :: ps) tok

/-- MessageFilter.update_token_usage (lines 222-236): for a tracked user,
overwrite the last recent-message entry's token count when one exists and
add the count to the hourly total; for an untracked user, do nothing. -/
def update_token_usage (m : Nat → Option UserData) (uid : Nat) (tok : Nat) :
    Nat → Option UserData :=
  fun v => if v = uid then
      match m uid with
      | none => none
      | some d => some { d with messages := set_last_tokens d.messages tok,
                                tokens_used_hour := d.tokens_used_hour + tok }
    else m v

/-- C10: reporting tokens for an untracked user is a complete no-op that
creates no state; it never touches another user's record; and for a
tracked user whose recent-message list is empty it still adds the count
to the hourly total without appending any entry. -/
theorem c10_update_token_usage_frame (m : Nat → Option UserData)
    (uid tok : Nat) :
    (m uid = none → update_token_usage m uid tok = m) ∧
      (∀ v, v ≠ uid → update_token_usage m uid tok v = m v) ∧
      (∀ d, m uid = some d → d.messages = [] →
        update_token_usage m uid tok uid
          = some ⟨[], d.tokens_used_hour + tok, d.last_hour_reset⟩) := by
  refine ⟨?_, ?_, ?_⟩
  · intro h
    funext v
    by_cases hv : v = uid <;> simp [update_token_usage, hv, h]
  · intro v hv
    simp [update_token_usage, hv]
  · intro d hd hm
    simp [update_token_usage, hd, hm, set_last_tokens]

/-- Concrete rate-limit table used by the C10 witness. -/
def um_example : Nat → Option UserData :=
  fun v => if v = 2 then some ⟨[], 7, 3⟩ else none

theorem c10_update_token_usage_frame_witness :
    update_token_usage um_example 1 5 = um_example ∧
      update_token_usage um_example 3 5 2 = um_example 2 ∧
      update_token_usage um_example 2 5 2 = some ⟨[], 7 + 5, 3⟩ :=
  ⟨(c10_update_token_usage_frame um_example 1 5).1 rfl,
    (c10_update_token_usage_frame um_example 3 5).2.1 2 (by decide),
    (c10_update_token_usage_frame um_example 2 5).2.2 ⟨[], 7, 3⟩ rfl rfl⟩

/-- Configuration fields of OpenAIIntegration (openai_integration.py
lines 21-26).  The nominal temperature is carried as an exact rational;
no claim depends on float rounding of this value. -/
structure OAIConfig where
  openai_api_key : String
  openai_model : String
  max_tokens : Nat
  temperature : Rat
  enabled : Bool

/-- One entry of the messages array of the request body (lines 147-165). -/
structure ChatMessage where
  role : String
  content : String
  deriving Repr, DecidableEq

/-- OpenAIIntegration._prepare_chat_messages (lines 143-171): a system
instruction embedding the caller display name and source channel,
followed by the raw user text. -/
def prepare_chat_messages (display_name channel content : String) :
    List ChatMessage :=
  [⟨"system",
      "You are a helpful AI assistant integrated into a Discord server. "
        ++ "Provide helpful, friendly, and concise responses to user messages. "
        ++ "Keep responses conversational and appropriate for a Discord chat environment. "
        ++ "The user\x27s name is " ++ display_name ++ ". "
        ++ "This message is from the #" ++ channel ++ " channel."⟩,
    ⟨"user", content⟩]

/-- Python str.startswith via the character lists. -/
def py_starts_with (s pre : String) : Bool := list_starts_with pre.toList s.toList

/-- Model identifiers that only support the default temperature
(line 198). -/
def models_with_fixed_temperature : List String :=
  ["gpt-5-nano", "gpt-o1", "o1-preview", "o1-mini"]

/-- Request payload _send_to_openai constructs (lines 190-209).  Absent
keys are none. -/
structure Payload where
  model : String
  messages : List ChatMessage
  temperature : Option Rat
  max_completion_tokens : Option Nat
  max_tokens : Option Nat
  deriving Repr, DecidableEq

/-- Payload construction of _send_to_openai (lines 190-209): temperature
is omitted when any fixed-temperature identifier occurs as a substring of
the lower-cased model name; the configured ceiling goes under
max_completion_tokens for models starting with gpt-5 or o, under
max_tokens otherwise. -/
def build_payload (cfg : OAIConfig) (model_to_use : String)
    (messages : List ChatMessage) : Payload :=
  let fixed := models_with_fixed_temperature.any
    (fun name => py_in name (py_lower model_to_use))
  let next_gen := py_starts_with model_to_use "gpt-5" || py_starts_with model_to_use "o"
  { model := model_to_use
    messages := messages
    temperature := if fixed then none else some cfg.temperature
    max_completion_tokens := if next_gen then some cfg.max_tokens else none
    max_tokens := if next_gen then none else some cfg.max_tokens }

/-- C5: a request for model gpt-5-nano carries no temperature field and
the configured ceiling under max_completion_tokens, with no max_tokens
key; a model in neither the fixed-temperature set nor the gpt-5/o prefix
family gets the nominal temperature and the same ceiling under
max_tokens, with no max_completion_tokens key. -/
theorem c5_payload_shaping (cfg : OAIConfig) (msgs : List ChatMessage)
    (m : String)
    (hfix : models_with_fixed_temperature.any
      (fun name => py_in name (py_lower m)) = false)
    (hpre : (py_starts_with m "gpt-5" || py_starts_with m "o") = false) :
    (build_payload cfg "gpt-5-nano" msgs).temperature = none ∧
      (build_payload cfg "gpt-5-nano" msgs).max_completion_tokens
          = some cfg.max_tokens ∧
      (build_payload cfg "gpt-5-nano" msgs).max_tokens = none ∧
      (build_payload cfg m msgs).temperature = some cfg.temperature ∧
      (build_payload cfg m msgs).max_tokens = some cfg.max_tokens ∧
      (build_payload cfg m msgs).max_completion_tokens = none := by
  refine ⟨rfl, rfl, rfl, ?_, ?_, ?_⟩ <;> simp [build_payload, hfix, hpre]

/-- Fixed configuration used by the payload and relay witnesses. -/
def oai_cfg_example : OAIConfig :=
  { openai_api_key := "sk-test", openai_model := "gpt-5-nano",
    max_tokens := 500, temperature := (7 : Rat) / 10, enabled := true }

theorem c5_payload_shaping_witness :
    models_with_fixed_temperature.any
        (fun name => py_in name (py_lower "gpt-4-turbo")) = false ∧
      (py_starts_with "gpt-4-turbo" "gpt-5" || py_starts_with "gpt-4-turbo" "o")
          = false ∧
      (build_payload oai_cfg_example "gpt-5-nano" []).temperature = none ∧
      (build_payload oai_cfg_example "gpt-5-nano" []).max_completion_tokens
          = some oai_cfg_example.max_tokens ∧
      (build_payload oai_cfg_example "gpt-4-turbo" []).temperature
          = some oai_cfg_example.temperature ∧
      (build_payload oai_cfg_example "gpt-4-turbo" []).max_tokens
          = some oai_cfg_example.max_tokens :=
  ⟨by decide, by decide,
    (c5_payload_shaping oai_cfg_example [] "gpt-4-turbo" (by decide) (by decide)).1,
    (c5_payload_shaping oai_cfg_example [] "gpt-4-turbo" (by decide) (by decide)).2.1,
    (c5_payload_shaping oai_cfg_example [] "gpt-4-turbo" (by decide) (by decide)).2.2.2.1,
    (c5_payload_shaping oai_cfg_example [] "gpt-4-turbo" (by decide) (by decide)).2.2.2.2.1⟩

/-- Usage block of the provider response, read with default 0
(lines 252-255). -/
structure Usage where
  prompt_tokens : Nat
  completion_tokens : Nat
  total_tokens : Nat
  deriving Repr, DecidableEq

/-- First-choice block of the provider response (lines 243-249). -/
structure Choice where
  content : String
  finish_reason : String
  deriving Repr, DecidableEq

/-- Provider response body (lines 243-273): choices list, optional usage
and optional created timestamp. -/
structure OpenAIResponse where
  choices : List Choice
  usage : Option Usage
  created : Option Nat
  deriving Repr, DecidableEq

/-- Outcome the transport reports for the single POST of a relay
(lines 213-225): HTTP status code and parsed body. -/
structure HttpReply where
  status : Nat
  body : OpenAIResponse
  deriving Repr, DecidableEq

/-- Mutable state of OpenAIIntegration (lines 34-40) together with the
rate ledger of the attached MessageFilter (message_filter.py line 25). -/
structure OAIState where
  total_tokens_used : Nat
  api_calls_made : Nat
  user_models : Nat → Option ModelOverride
  rate_limit : Nat → Option UserData

/-- Formatted presentation embed _handle_openai_response builds
(lines 284-299): response text, the configured default model name and
nominal temperature, the token count, and the resolved timestamp. -/
structure Presentation where
  description : String
  model_field : String
  temperature_field : Rat
  tokens_field : Nat
  timestamp_field : Nat
  deriving Repr, DecidableEq

/-- OpenAIIntegration._handle_openai_response (lines 231-311): abort on
missing choices; otherwise account the usage in the session counters and
the user's rate ledger, then build the embed unless the first choice's
content is empty. -/
def handle_openai_response (cfg : OAIConfig) (st : OAIState) (uid : Nat)
    (resp : OpenAIResponse) (now : Nat) : Option Presentation × OAIState :=
  match resp.choices with
  | [] => (none, st)
  | c :: _ =>
    let total := (resp.usage.map Usage.total_tokens).getD 0
    let st1 : OAIState :=
      { st with total_tokens_used := st.total_tokens_used + total,
                api_calls_made := st.api_calls_made + 1,
                rate_limit := update_token_usage st.rate_limit uid total }
    if c.content = "" then (none, st1)
    else (some { description := c.content, model_field := cfg.openai_model,
                 temperature_field := cfg.temperature, tokens_field := total,
                 timestamp_field := resp.created.getD now }, st1)

/-- OpenAIIntegration._send_to_openai (lines 173-229): resolve the
user's model (purging expired overrides as a side effect), construct the
payload, post it, and hand back the parsed body only on HTTP 200.  The
payload is returned as the observable request; a zero user id models the
falsy user_id fallback of line 183. -/
def send_to_openai (cfg : OAIConfig) (um : Nat → Option ModelOverride)
    (msgs : List ChatMessage) (uid : Nat) (now : Nat) (reply : HttpReply) :
    Option Payload × Option OpenAIResponse × (Nat → Option ModelOverride) :=
  if msgs.isEmpty then (none, none, um)
  else
    let r := if uid = 0 then (cfg.openai_model, um)
      else get_user_model cfg.openai_model um uid now
    let payload := build_payload cfg r.1 msgs
    if reply.status = 200 then (some payload, some reply.body, r.2)
    else (some payload, none, r.2)

/-- Observable outcome of one relay: the payload sent over HTTP (if any),
the presentation delivered back to the channel (if any), and the final
engine state. -/
structure RelayResult where
  sent : Option Payload
  reply : Option Presentation
  state : OAIState

/-- OpenAIIntegration.relay_message (lines 99-141): skip when the
integration is disabled, the key is missing or the placeholder, or the
message was filtered out; otherwise prepare the two chat messages, send
them, and process a received response into a presentation. -/
def relay_message (cfg : OAIConfig) (st : OAIState) (uid : Nat)
    (display_name channel content : String) (should_process : Bool)
    (reply : HttpReply) (now : Nat) : RelayResult :=
  if cfg.enabled = false then ⟨none, none, st⟩
  else if cfg.openai_api_key = "" ∨ cfg.openai_api_key = "your-openai-api-key-here"
    then ⟨none, none, st⟩
  else if should_process = false then ⟨none, none, st⟩
  else
    let msgs := prepare_chat_messages display_name channel content
    let s := send_to_openai cfg st.user_models msgs uid now reply
    let st1 : OAIState := { st with user_models := s.2.2 }
    match s.2.1 with
    | none => ⟨s.1, none, st1⟩
    | some resp =>
      let h := handle_openai_response cfg st1 uid resp now
      ⟨s.1, h.1, h.2⟩

theorem send_to_openai_fail (cfg : OAIConfig) (um : Nat → Option ModelOverride)
    (msgs : List ChatMessage) (uid : Nat) (now : Nat) (reply : HttpReply)
    (hm : msgs.isEmpty = false) (h : reply.status ≠ 200) :
    (send_to_openai cfg um msgs uid now reply).2.1 = none := by
  simp [send_to_openai, hm, h]

/-- C6: when the HTTP call returns a non-200 status the relay delivers no
presentation, and the session counters and the whole rate ledger are
unchanged, so the admitted slot keeps its zero token count. -/
theorem c6_transport_failure_no_accounting (cfg : OAIConfig) (st : OAIState)
    (uid : Nat) (display_name channel content : String) (sp : Bool)
    (reply : HttpReply) (now : Nat) (h : reply.status ≠ 200) :
    (relay_message cfg st uid display_name channel content sp reply now).reply
        = none ∧
      (relay_message cfg st uid display_name channel content sp reply now).state.total_tokens_used
        = st.total_tokens_used ∧
      (relay_message cfg st uid display_name channel content sp reply now).state.api_calls_made
        = st.api_calls_made ∧
      (relay_message cfg st uid display_name channel content sp reply now).state.rate_limit
        = st.rate_limit := by
  unfold relay_message
  split
  · exact ⟨rfl, rfl, rfl, rfl⟩
  · split
    · exact ⟨rfl, rfl, rfl, rfl⟩
    · split
      · exact ⟨rfl, rfl, rfl, rfl⟩
      · have hs := send_to_openai_fail cfg st.user_models
          (prepare_chat_messages display_name channel content) uid now reply rfl h
        simp [hs]

/-- Concrete engine state used by the relay witnesses: user 7 holds an
unexpired override to gpt-4o and one admitted zero-cost slot. -/
def oai_state_example : OAIState :=
  { total_tokens_used := 11, api_calls_made := 2,
    user_models := fun v => if v = 7 then some ⟨"gpt-4o", 100⟩ else none,
    rate_limit := fun v => if v = 7 then some ⟨[(40, 0)], 3, 0⟩ else none }

theorem c6_transport_failure_no_accounting_witness :
    (500 : Nat) ≠ 200 ∧
      (relay_message oai_cfg_example oai_state_example 7 "alice" "general"
          "Hello" true ⟨500, ⟨[], none, none⟩⟩ 50).reply = none ∧
      (relay_message oai_cfg_example oai_state_example 7 "alice" "general"
          "Hello" true ⟨500, ⟨[], none, none⟩⟩ 50).state.total_tokens_used
        = oai_state_example.total_tokens_used ∧
      (relay_message oai_cfg_example oai_state_example 7 "alice" "general"
          "Hello" true ⟨500, ⟨[], none, none⟩⟩ 50).state.rate_limit
        = oai_state_example.rate_limit :=
  ⟨by decide,
    (c6_transport_failure_no_accounting oai_cfg_example oai_state_example 7
      "alice" "general" "Hello" true ⟨500, ⟨[], none, none⟩⟩ 50 (by decide)).1,
    (c6_transport_failure_no_accounting oai_cfg_example oai_state_example 7
      "alice" "general" "Hello" true ⟨500, ⟨[], none, none⟩⟩ 50 (by decide)).2.1,
    (c6_transport_failure_no_accounting oai_cfg_example oai_state_example 7
      "alice" "general" "Hello" true ⟨500, ⟨[], none, none⟩⟩ 50 (by decide)).2.2.2⟩

/-- C9: a successful relay formats a presentation that always carries the
configured default model identifier and the nominal configured
temperature, even while an active per-user override routed the request
itself to the override model. -/
theorem c9_presentation_nominal_config (cfg : OAIConfig) (st : OAIState)
    (uid : Nat) (display_name channel content : String)
    (reply : HttpReply) (now : Nat) (o : ModelOverride) (c : Choice)
    (rest : List Choice)
    (hen : cfg.enabled = true)
    (hk1 : cfg.openai_api_key ≠ "")
    (hk2 : cfg.openai_api_key ≠ "your-openai-api-key-here")
    (huid : uid ≠ 0)
    (hov : st.user_models uid = some o)
    (hexp : now < o.expires_at)
    (hst : reply.status = 200)
    (hch : reply.body.choices = c :: rest)
    (hc : c.content ≠ "") :
    (relay_message cfg st uid display_name channel content true reply now).sent
        = some (build_payload cfg o.model
            (prepare_chat_messages display_name channel content)) ∧
      (relay_message cfg st uid display_name channel content true reply now).reply
        = some { description := c.content, model_field := cfg.openai_model,
                 temperature_field := cfg.temperature,
                 tokens_field := (reply.body.usage.map Usage.total_tokens).getD 0,
                 timestamp_field := reply.body.created.getD now } := by
  have hgm : get_user_model cfg.openai_model st.user_models uid now
      = (o.model, cleanup_expired_models st.user_models now) := by
    simp [get_user_model, cleanup_expired_models, hov, Nat.not_le.mpr hexp]
  have hsend : send_to_openai cfg st.user_models
      (prepare_chat_messages display_name channel content) uid now reply
      = (some (build_payload cfg o.model
            (prepare_chat_messages display_name channel content)),
          some reply.body, cleanup_expired_models st.user_models now) := by
    unfold send_to_openai
    rw [if_neg (by simp [prepare_chat_messages]), if_neg huid, hgm, if_pos hst]
  unfold relay_message
  rw [if_neg (by simp [hen]), if_neg (by simp [hk1, hk2]), if_neg (by simp)]
  simp only [hsend, handle_openai_response, hch]
  simp [hc]

theorem c9_presentation_nominal_config_witness :
    oai_state_example.user_models 7 = some ⟨"gpt-4o", 100⟩ ∧
      (relay_message oai_cfg_example oai_state_example 7 "alice" "general"
          "Hello" true ⟨200, ⟨[⟨"Hi", "stop"⟩], some ⟨3, 9, 12⟩, some 42⟩⟩ 50).sent
        = some (build_payload oai_cfg_example "gpt-4o"
            (prepare_chat_messages "alice" "general" "Hello")) ∧
      (relay_message oai_cfg_example oai_state_example 7 "alice" "general"
          "Hello" true ⟨200, ⟨[⟨"Hi", "stop"⟩], some ⟨3, 9, 12⟩, some 42⟩⟩ 50).reply
        = some { description := "Hi", model_field := oai_cfg_example.openai_model,
                 temperature_field := oai_cfg_example.temperature,
                 tokens_field := (((⟨200, ⟨[⟨"Hi", "stop"⟩], some ⟨3, 9, 12⟩, some 42⟩⟩ :
                     HttpReply)).body.usage.map Usage.total_tokens).getD 0,
                 timestamp_field := ((⟨200, ⟨[⟨"Hi", "stop"⟩], some ⟨3, 9, 12⟩,
                     some 42⟩⟩ : HttpReply)).body.created.getD 50 } :=
  ⟨rfl,
    (c9_presentation_nominal_config oai_cfg_example oai_state_example 7 "alice"
      "general" "Hello" ⟨200, ⟨[⟨"Hi", "stop"⟩], some ⟨3, 9, 12⟩, some 42⟩⟩ 50
      ⟨"gpt-4o", 100⟩ ⟨"Hi", "stop"⟩ []
      rfl (by decide) (by decide) (by decide) rfl (by decide) rfl rfl (by decide)).1,
    (c9_presentation_nominal_config oai_cfg_example oai_state_example 7 "alice"
      "general" "Hello" ⟨200, ⟨[⟨"Hi", "stop"⟩], some ⟨3, 9, 12⟩, some 42⟩⟩ 50
      ⟨"gpt-4o", 100⟩ ⟨"Hi", "stop"⟩ []
      rfl (by decide) (by decide) (by decide) rfl (by decide) rfl rfl (by decide)).2⟩

theorem c7_content_safety_total_and_empty_witness :
    check_content_safety blocked_words "" = false ∧
      0 < ("a" : String).length ∧
      (check_content_safety_core blocked_words "a").isOk = true :=
  ⟨(c7_content_safety_total_and_empty).2.1, by decide,
    (c7_content_safety_total_and_empty).2.2 "a" (by decide)⟩
